import Mathlib

/-!
Verification of the NBA player-stat prediction engine
(backend/services/prediction_engine.py) against its specification.

Modelling conventions (shallow embedding):
* Python floats are modelled as exact rationals (ℚ) for stored data and as
  real numbers (ℝ) for derived quantities that involve `np.exp` / `np.sqrt`
  (the exponential-decay weighted average, the standard deviation).  Floating
  point rounding is not modelled.
* The SQL queries are external data feeds (the spec places the query text out
  of scope): each query's result set is a field of the `Env` record, and the
  Python post-processing of those result sets is embedded faithfully.  The
  GROUP BY / HAVING clause of the star-teammate query and the ORDER BY / LIMIT
  clause of the prop-line query are part of the selection logic the spec
  describes, so those two are embedded as well.
* A pandas NaN is modelled as `Option.none`; `dropna` is `List.filterMap id`.
* A Python exception escaping the engine (the KeyError raised by
  `df[f"{stat_type}_allowed"]` for steals/blocks) is modelled with `Except`.
* `pd.DataFrame.tail n` is `lastN n`; row order in each result list is the
  order the query's ORDER BY produces, ascending by date for game logs.
-/

/-- The five stat categories accepted by the engine. -/
inductive StatType
  | points
  | rebounds
  | assists
  | steals
  | blocks
deriving DecidableEq

/-- Confidence tier of a prediction. -/
inductive Confidence
  | high
  | medium
  | low
deriving DecidableEq

/-- Recommendation attached to a prediction.  `passAltLine` is the source's
"Pass (Alt Line)" string, `noLineAvailable` is "No Line Available". -/
inductive Recommendation
  | over
  | under
  | pass
  | passAltLine
  | noLineAvailable
deriving DecidableEq

/-- model_type of the returned dict. -/
inductive ModelType
  | hybridVegasPlus
  | statisticalOnly
deriving DecidableEq

/-- The one Python exception that can escape the engine: a pandas KeyError
from indexing a dataframe column that the query did not create. -/
inductive EngineError
  | keyError (column : String)
deriving DecidableEq

/-- One row of the game-log query (player_boxscores JOIN basic_events,
filtered to didNotPlay = '0', non-null non-zero minutes, season type 2,
ordered ascending by date).  Stat values are the CAST(... AS FLOAT) columns;
fgaStr is the raw "made-attempted" string (None models SQL NULL / NaN). -/
structure GameLogRow where
  gameId : String
  date : ℤ
  points : ℚ
  rebounds : ℚ
  assists : ℚ
  steals : ℚ
  blocks : ℚ
  fgaStr : Option String
deriving DecidableEq

/-- The stat column selected by game_log[stat_type]. -/
def statValue : StatType → GameLogRow → ℚ
  | .points, r => r.points
  | .rebounds, r => r.rebounds
  | .assists, r => r.assists
  | .steals, r => r.steals
  | .blocks, r => r.blocks

/-- One row of the player_props table for the target
(athlete_id, game_id, prop_type): CAST(line AS FLOAT) plus the two
American-odds strings (None models SQL NULL). -/
structure PropRow where
  line : ℚ
  overOdds : Option String
  underOdds : Option String
deriving DecidableEq

/-- One row of the opponent-defense query: the three CASE columns it builds.
The query creates ONLY these three *_allowed columns. -/
structure OppRow where
  pointsAllowed : ℚ
  reboundsAllowed : ℚ
  assistsAllowed : ℚ
deriving DecidableEq

/-- One row of the star-teammate query's input (player_boxscores JOIN
athletes, already filtered by team, season, didNotPlay = '0',
date < target-game date; the GROUP BY / AVG / HAVING is embedded below). -/
structure TeammateRow where
  athleteId : String
  name : String
  points : ℚ
deriving DecidableEq

/-- The opponent_result row of calculate_statistical_prediction
(player_boxscores JOIN team_boxscores for the target game). -/
structure OppTeams where
  playerTeam : String
  awayTeam : String
  homeTeam : String
deriving DecidableEq

/-- All data-feed results one predict_stat call consumes.  Each field is one
query's result set; the engine's Python-side processing of them is embedded
in the functions below. -/
structure Env where
  /-- game-log query result for (athlete, resolved season), date ascending -/
  playerLog : List GameLogRow
  /-- the target game id (used as before_game_id) -/
  gameId : String
  /-- the target athlete id -/
  athleteId : String
  /-- player_props rows for (athlete, game, prop_type) -/
  propRows : List PropRow
  /-- opponent_result: none models an empty dataframe (future game) -/
  opponentTeams : Option OppTeams
  /-- opponent-defense query result (last ≤ 10 opponent games) -/
  oppDf : List OppRow
  /-- star-teammate query input rows (teammate boxscore lines) -/
  teammateRows : List TeammateRow
  /-- athlete_ids with a didNotPlay='0' boxscore row in the target game
  for the player's team (input to the playing-stars query) -/
  playingIds : List String

/-- pd.Series.tail n: the last min(n, length) elements. -/
def lastN (n : ℕ) (l : List α) : List α := l.drop (l.length - n)

/-- pd.Series.dropna. -/
def dropna (values : List (Option ℝ)) : List ℝ := values.filterMap id

/-- Python round(x, 1) on exact rationals (half-way cases follow Lean's
round-half-up rather than Python's banker's rounding; no claim depends on a
half-way case). -/
def round1 (x : ℚ) : ℚ := (round (10 * x) : ℚ) / 10

/-- round(x, 1) on reals. -/
noncomputable def round1R (x : ℝ) : ℝ := (round (10 * x) : ℝ) / 10

/-- Value of a digit string (used by the odds parsers below). -/
def digitsVal (cs : List Char) : ℤ :=
  cs.foldl (fun acc c => acc * 10 + ((c.toNat : ℤ) - 48)) 0

/-- SQLite REPLACE(s, '+', '') / Python s.replace('+', ''). -/
def stripPlus (s : String) : String := String.mk (s.data.filter (fun c => c != '+'))

/-- SQLite CAST(s AS INTEGER): optional sign then the longest digit prefix;
a string with no leading numeric part casts to 0. -/
def sqliteCastInt (s : String) : ℤ :=
  match s.data with
  | '-' :: rest => -(digitsVal (rest.takeWhile Char.isDigit))
  | '+' :: rest => digitsVal (rest.takeWhile Char.isDigit)
  | cs => digitsVal (cs.takeWhile Char.isDigit)

/-- Python int(s): the whole string must be an optionally signed digit
string, otherwise a ValueError (None; the source catches it). -/
def pythonInt (s : String) : Option ℤ :=
  match s.data with
  | [] => none
  | '-' :: rest =>
    if rest ≠ [] ∧ rest.all Char.isDigit then some (-(digitsVal rest)) else none
  | '+' :: rest =>
    if rest ≠ [] ∧ rest.all Char.isDigit then some (digitsVal rest) else none
  | cs =>
    if cs.all Char.isDigit then some (digitsVal cs) else none

/-- get_player_game_log, lines 62-66: the Python-side truncation of the
date-ascending game log.  df.iloc[:first-index-of(before_game_id)] is
takeWhile (gameId ≠ before_game_id); when before_game_id is None (or not
among the rows' game_ids) the frame is returned whole. -/
def get_player_game_log (df : List GameLogRow) (beforeGameId : Option String) :
    List GameLogRow :=
  match beforeGameId with
  | none => df
  | some g =>
    if (df.map (fun r => r.gameId)).contains g then
      df.takeWhile (fun r => r.gameId != g)
    else
      df

/-- ORDER BY ABS(CAST(REPLACE(over_odds, '+', '') AS INTEGER) - 110) ASC. -/
def overOddsKey (r : PropRow) : ℤ :=
  |sqliteCastInt (stripPlus (r.overOdds.getD "")) - 110|

/-- ORDER BY key ASC LIMIT 1 (ties resolved to the earlier row; SQLite
leaves tie order unspecified, no claim depends on a tie). -/
def minByKey (key : PropRow → ℤ) : List PropRow → Option PropRow
  | [] => none
  | r :: rs =>
    match minByKey key rs with
    | none => some r
    | some m => if key r ≤ key m then some r else some m

/-- The dict returned by get_prop_line. -/
structure VegasData where
  line : ℚ
  hasOdds : Bool
  overOdds : String
  underOdds : String
deriving DecidableEq

/-- get_prop_line, lines 68-139: rows with both odds non-null, ordered by
ABS(int-cast of '+'-stripped over_odds minus 110), first row taken; then the
Python main-line check: both odds must int-parse into [-200, 200]. -/
def get_prop_line (rows : List PropRow) : Option VegasData :=
  match minByKey overOddsKey
      (rows.filter (fun r => r.overOdds.isSome && r.underOdds.isSome)) with
  | none => none
  | some r =>
    let o := r.overOdds.getD ""
    let u := r.underOdds.getD ""
    let hasValidOdds :=
      match pythonInt (stripPlus o), pythonInt (stripPlus u) with
      | some ov, some uv =>
        decide (-200 ≤ ov ∧ ov ≤ 200) && decide (-200 ≤ uv ∧ uv ≤ 200)
      | _, _ => false
    some ⟨r.line, hasValidOdds, o, u⟩

/-- The dict returned by get_opponent_recent_defense. -/
structure OppDefInfo where
  adjustment : ℚ
  opponentAvg : Option ℚ
  leagueAvg : Option ℚ
  gamesAnalyzed : ℕ
deriving DecidableEq

/-- league_averages.get(stat_type, 0). -/
def leagueAverage : StatType → ℚ
  | .points => 114.5
  | .rebounds => 44.0
  | .assists => 27.0
  | .steals => 0
  | .blocks => 0

/-- Mean of a ℚ column (the column is non-empty wherever this is applied). -/
def qMean (l : List ℚ) : ℚ := l.sum / (l.length : ℚ)

/-- get_opponent_recent_defense, lines 196-226: fewer than 3 opponent games
gives the neutral dict; otherwise df[f"{stat_type}_allowed"] is read — the
query built only points/rebounds/assists columns, so for steals/blocks that
column access raises a pandas KeyError. -/
def get_opponent_recent_defense (df : List OppRow) (stat : StatType) :
    Except EngineError OppDefInfo :=
  if df.length < 3 then
    .ok ⟨0, none, none, df.length⟩
  else
    match stat with
    | .steals => .error (.keyError "steals_allowed")
    | .blocks => .error (.keyError "blocks_allowed")
    | .points =>
      let avg := qMean (df.map (fun r => r.pointsAllowed))
      .ok ⟨(avg - leagueAverage .points) * 0.70, some (round1 avg),
        some (leagueAverage .points), df.length⟩
    | .rebounds =>
      let avg := qMean (df.map (fun r => r.reboundsAllowed))
      .ok ⟨(avg - leagueAverage .rebounds) * 0.70, some (round1 avg),
        some (leagueAverage .rebounds), df.length⟩
    | .assists =>
      let avg := qMean (df.map (fun r => r.assistsAllowed))
      .ok ⟨(avg - leagueAverage .assists) * 0.70, some (round1 avg),
        some (leagueAverage .assists), df.length⟩

/-- parse_fga (inside get_usage_change): split the "made-attempted" string on
'-' and float() the second part; missing/malformed gives NaN (None).
FGA values are whole numbers, so float() is modelled by a digit parse. -/
def parseFga (s : Option String) : Option ℚ :=
  match s with
  | none => none
  | some str =>
    if str = "" then none
    else
      match str.data.splitOn '-' with
      | [_, b] =>
        if b ≠ [] ∧ b.all Char.isDigit then some ((digitsVal b : ℤ) : ℚ) else none
      | _ => none

/-- Mean of a ℚ series with NaN for empty (pandas mean of no values). -/
def qMeanOpt (l : List ℚ) : Option ℚ :=
  if l.isEmpty then none else some (qMean l)

/-- The dict returned by get_usage_change.  usageChange none models the NaN
produced when the last five fga values are all missing. -/
structure UsageInfo where
  usageChange : Option ℚ
  increaseRecentWeight : Bool
  recentFga : Option ℚ
  seasonFga : Option ℚ
deriving DecidableEq

/-- The neutral dict get_usage_change returns on its guard paths. -/
def neutralUsage : UsageInfo := ⟨some 0, false, none, none⟩

/-- get_usage_change, lines 228-280. -/
def get_usage_change (gameLog : List GameLogRow) : UsageInfo :=
  if gameLog.length < 5 then neutralUsage
  else
    let fgas := gameLog.map (fun r => parseFga r.fgaStr)
    match qMeanOpt (fgas.filterMap id) with
    | none => neutralUsage
    | some seasonFga =>
      if seasonFga = 0 then neutralUsage
      else
        match qMeanOpt ((lastN 5 fgas).filterMap id) with
        | some recentFga =>
          let pctChange := (recentFga - seasonFga) / seasonFga
          ⟨some pctChange, decide (|pctChange| > 0.20),
            some (round1 recentFga), some (round1 seasonFga)⟩
        | none =>
          -- recent_fga is NaN: pct_change is NaN, abs(NaN) > 0.2 is False
          ⟨none, false, none, some (round1 seasonFga)⟩

/-- The rows of the given teammate with this athlete_id (one GROUP BY
group). -/
def rowsFor (rows : List TeammateRow) (a : String) : List TeammateRow :=
  rows.filter (fun r => r.athleteId == a)

/-- AVG(CAST(pb.points AS FLOAT)) of one group. -/
def avgPoints (rows : List TeammateRow) (a : String) : ℚ :=
  qMean ((rowsFor rows a).map (fun r => r.points))

/-- The star-teammate query, lines 297-314: GROUP BY athlete (the target
athlete is excluded by the WHERE clause), HAVING AVG(points) > 15.0.
The ORDER BY avg DESC is not modelled (only membership matters here);
groups are listed in first-appearance order. -/
def star_ids (rows : List TeammateRow) (athleteId : String) : List String :=
  ((rows.map (fun r => r.athleteId)).dedup).filter
    (fun a => a != athleteId && decide (15 < avgPoints rows a))

/-- Display name of an athlete id (from the joined athletes table). -/
def displayNameOf (rows : List TeammateRow) (a : String) : String :=
  ((rows.find? (fun r => r.athleteId == a)).map (fun r => r.name)).getD ""

/-- The dict returned by get_teammate_context. -/
structure TeammateContext where
  missingStars : List String
  adjustment : ℚ
  starsPlaying : ℕ
  starsTotal : ℕ
deriving DecidableEq

/-- get_teammate_context, lines 282-366: star teammates (HAVING avg > 15),
then the playing query (participants of the target game restricted to the
star ids), missing = star set minus playing set, and
adjustment = 0.125 per missing star. -/
def get_teammate_context (rows : List TeammateRow) (athleteId : String)
    (participants : List String) : TeammateContext :=
  let stars := star_ids rows athleteId
  if stars.isEmpty then ⟨[], 0, 0, 0⟩
  else
    let playingIds := (participants.filter (fun a => stars.contains a)).dedup
    let missingIds := stars.filter (fun a => !(playingIds.contains a))
    let missingStars := missingIds.map (displayNameOf rows)
    ⟨missingStars, (missingStars.length : ℚ) * 0.125,
      playingIds.length, stars.length⟩

/-- The un-normalized exponential-decay weight of index i in a series of
length m: np.exp(-decay * np.arange(m)[::-1])[i] = exp(-decay * (m-1-i)),
so the most recent index m-1 gets raw weight exp(0) = 1. -/
noncomputable def rawWeight (decay : ℝ) (m i : ℕ) : ℝ :=
  Real.exp (-(decay * ((m - 1 - i : ℕ) : ℝ)))

/-- The raw weight list. -/
noncomputable def rawWeights (decay : ℝ) (m : ℕ) : List ℝ :=
  (List.range m).map (rawWeight decay m)

/-- weights / weights.sum(). -/
noncomputable def normWeight (decay : ℝ) (m i : ℕ) : ℝ :=
  rawWeight decay m i / (rawWeights decay m).sum

/-- The normalized weight list. -/
noncomputable def normWeights (decay : ℝ) (m : ℕ) : List ℝ :=
  (List.range m).map (normWeight decay m)

/-- The series calculate_weighted_average actually averages:
values.dropna().tail(n_recent). -/
def tailValues (values : List (Option ℝ)) (nRecent : ℕ) : List ℝ :=
  lastN nRecent (dropna values)

/-- calculate_weighted_average, lines 368-387: 0.0 for an empty series, else
dropna().tail(n_recent), normalized exponential-decay weights, and
np.average(values, weights) = dot(weights, values) / weights.sum(). -/
noncomputable def calculate_weighted_average (values : List (Option ℝ))
    (nRecent : ℕ) (decay : ℝ) : ℝ :=
  if values.length = 0 then 0
  else
    let vs := tailValues values nRecent
    if vs.length = 0 then 0
    else
      let w := normWeights decay vs.length
      (List.zipWith (fun wi x => wi * x) w vs).sum / w.sum

/-- The truncated game log used by calculate_statistical_prediction:
get_player_game_log(..., before_game_id=game_id). -/
def glOf (env : Env) : List GameLogRow :=
  get_player_game_log env.playerLog (some env.gameId)

/-- stat_values = game_log[stat_type]. -/
def valsOf (env : Env) (stat : StatType) : List ℚ :=
  (glOf env).map (statValue stat)

/-- usage_info = self.get_usage_change(game_log). -/
def usageOf (env : Env) : UsageInfo := get_usage_change (glOf env)

/-- decay_rate = 0.05 if usage_info['increase_recent_weight'] else 0.15. -/
noncomputable def decayOf (env : Env) : ℝ :=
  if (usageOf env).increaseRecentWeight then 0.05 else 0.15

/-- baseline = calculate_weighted_average(stat_values, 10, decay_rate). -/
noncomputable def baselineOf (env : Env) (stat : StatType) : ℝ :=
  calculate_weighted_average ((valsOf env stat).map (fun q => some (q : ℝ)))
    10 (decayOf env)

/-- season_avg = stat_values.mean(). -/
noncomputable def seasonAvgOf (env : Env) (stat : StatType) : ℝ :=
  ((valsOf env stat).map (fun q => (q : ℝ))).sum / ((valsOf env stat).length : ℝ)

/-- recent_5 = stat_values.tail(5).mean() if len >= 5 else baseline. -/
noncomputable def recent5Of (env : Env) (stat : StatType) : ℝ :=
  if 5 ≤ (valsOf env stat).length then
    ((lastN 5 (valsOf env stat)).map (fun q => (q : ℝ))).sum /
      ((lastN 5 (valsOf env stat)).length : ℝ)
  else baselineOf env stat

/-- trend_adj = (recent_5 - season_avg) * 0.25. -/
noncomputable def trendAdjOf (env : Env) (stat : StatType) : ℝ :=
  (recent5Of env stat - seasonAvgOf env stat) * 0.25

/-- Sample standard deviation (pandas .std(), ddof = 1).  A series of one
value gives NaN in pandas; that path is unreachable here (≥ 3 games), 0 is
used as the placeholder. -/
noncomputable def sampleStd (l : List ℝ) : ℝ :=
  if l.length ≤ 1 then 0
  else
    Real.sqrt ((l.map (fun x => (x - l.sum / (l.length : ℝ)) ^ 2)).sum /
      ((l.length : ℝ) - 1))

/-- cv = std_dev / baseline if baseline > 0 else 1.0, with
std_dev = stat_values.tail(10).std(). -/
noncomputable def cvOf (env : Env) (stat : StatType) : ℝ :=
  if 0 < baselineOf env stat then
    sampleStd ((lastN 10 (valsOf env stat)).map (fun q => (q : ℝ))) /
      baselineOf env stat
  else 1

open Classical in
/-- The statistical confidence tier, lines 473-478. -/
noncomputable def statConfOf (env : Env) (stat : StatType) : Confidence :=
  if cvOf env stat < 0.3 ∧ 10 ≤ (valsOf env stat).length then .high
  else if cvOf env stat < 0.5 ∧ 5 ≤ (valsOf env stat).length then .medium
  else .low

/-- The dict calculate_statistical_prediction returns on success. -/
structure StatSuccess where
  prediction : ℝ
  confidence : Confidence
  baseline : ℝ
  seasonAvg : ℝ
  recent5 : ℝ
  trendAdj : ℝ
  gamesUsed : ℕ
  usage : UsageInfo
  opponentDefense : Option OppDefInfo
  teammateContext : TeammateContext
  opponentAdj : ℚ
  teammateBoostPct : ℚ

/-- calculate_statistical_prediction's result: the insufficient-data dict
(prediction None, confidence Low, error string) or the full dict. -/
inductive StatOut
  | insufficient
  | success (s : StatSuccess)

/-- calculate_statistical_prediction, lines 389-494.  The opponent-defense
and teammate blocks only run when opponent_result is non-empty; the KeyError
of the opponent column access propagates (nothing catches it). -/
noncomputable def calculate_statistical_prediction (env : Env)
    (stat : StatType) : Except EngineError StatOut :=
  if (glOf env).length < 3 then .ok .insufficient
  else
    let predictionBase := baselineOf env stat + trendAdjOf env stat
    match env.opponentTeams with
    | none =>
      -- opponent_adj stays 0.0 and the teammate boost is never applied
      .ok (.success ⟨predictionBase, statConfOf env stat, baselineOf env stat,
        seasonAvgOf env stat, recent5Of env stat, trendAdjOf env stat,
        (valsOf env stat).length, usageOf env, none, ⟨[], 0, 0, 0⟩, 0, 0⟩)
    | some _ =>
      match get_opponent_recent_defense env.oppDf stat with
      | .error e => .error e
      | .ok opp =>
        let tc := get_teammate_context env.teammateRows env.athleteId
          env.playingIds
        let prediction :=
          (predictionBase + (opp.adjustment : ℝ)) * (1 + (tc.adjustment : ℝ))
        .ok (.success ⟨prediction, statConfOf env stat, baselineOf env stat,
          seasonAvgOf env stat, recent5Of env stat, trendAdjOf env stat,
          (valsOf env stat).length, usageOf env, some opp, tc,
          round1 opp.adjustment, round1 (tc.adjustment * 100)⟩)

/-- The fields of the hybrid branch that the claims inspect. -/
structure HybridOut where
  finalPrediction : ℝ
  edge : ℝ
  confidence : Confidence
  recommendation : Recommendation

open Classical in
/-- The hybrid (market-line present) branch of predict_stat,
lines 539-574: final = line*0.65 + stat*0.35, edge = final - line,
disagreement = |edge|/line if line > 0 else 0, then the three
confidence/recommendation bands. -/
noncomputable def hybridOutcome (vegasLine : ℝ) (hasValidOdds : Bool)
    (statPredValue : ℝ) : HybridOut :=
  let vegasWeight : ℝ := 0.65
  let statWeight : ℝ := 0.35
  let finalPrediction := vegasLine * vegasWeight + statPredValue * statWeight
  let edge := finalPrediction - vegasLine
  let disagreement := if 0 < vegasLine then |edge| / vegasLine else 0
  if disagreement < 0.10 then
    ⟨finalPrediction, edge, .high,
      if hasValidOdds then
        if |edge| < 0.5 then .pass else if 0 < edge then .over else .under
      else .passAltLine⟩
  else if disagreement < 0.20 then
    ⟨finalPrediction, edge, .medium,
      if hasValidOdds then
        if 1.0 ≤ edge then .over else if edge ≤ -1.0 then .under else .pass
      else .passAltLine⟩
  else
    ⟨finalPrediction, edge, .low,
      if hasValidOdds then
        if 2.0 ≤ edge then .over else if edge ≤ -2.0 then .under else .pass
      else .pass⟩

/-- The result dict of predict_stat (its factor-string list is display-only
and not modelled). -/
structure PredResult where
  prediction : ℝ
  vegasLine : Option ℚ
  statPrediction : ℝ
  edge : Option ℝ
  confidence : Confidence
  recommendation : Recommendation
  modelType : ModelType
  gamesUsed : ℕ

/-- predict_stat's returned dict: the propagated insufficient-data dict
(prediction None) or a full prediction. -/
inductive PredictOutcome
  | insufficient
  | result (r : PredResult)

/-- predict_stat, lines 496-663 (season resolution feeds the external
queries and is folded into Env).  The Vegas line is fetched first, the
statistical prediction second, exactly as in the source. -/
noncomputable def predict_stat (env : Env) (stat : StatType) :
    Except EngineError PredictOutcome :=
  let vegasData := get_prop_line env.propRows
  match calculate_statistical_prediction env stat with
  | .error e => .error e
  | .ok .insufficient => .ok .insufficient
  | .ok (.success s) =>
    match vegasData with
    | some v =>
      let hb := hybridOutcome (v.line : ℝ) v.hasOdds s.prediction
      .ok (.result ⟨round1R hb.finalPrediction, some v.line,
        round1R s.prediction, some (round1R hb.edge), hb.confidence,
        hb.recommendation, .hybridVegasPlus, s.gamesUsed⟩)
    | none =>
      .ok (.result ⟨round1R s.prediction, none, round1R s.prediction, none,
        s.confidence, .noLineAvailable, .statisticalOnly, s.gamesUsed⟩)

/-- Does a predict_stat call end in the insufficient-history dict? -/
def isInsufficient : Except EngineError PredictOutcome → Bool
  | .ok .insufficient => true
  | _ => false

/-- Does a predict_stat call produce a full prediction result? -/
def isResult : Except EngineError PredictOutcome → Bool
  | .ok (.result _) => true
  | _ => false

/-- The exact condition under which the engine's only uncaught exception
fires: opponent_result non-empty, at least 3 opponent games, and a stat
category whose *_allowed column the opponent query does not build. -/
def keyErrorCond (env : Env) (stat : StatType) : Prop :=
  env.opponentTeams.isSome = true ∧ 3 ≤ env.oppDf.length ∧
    (stat = .steals ∨ stat = .blocks)

instance (env : Env) (stat : StatType) : Decidable (keyErrorCond env stat) := by
  unfold keyErrorCond
  infer_instance

open Classical in
/-- Spec formula (§4.7 step 5): edge = (line×0.65 + statistical×0.35) − line. -/
noncomputable def specEdge (l s : ℝ) : ℝ := (l * 0.65 + s * 0.35) - l

open Classical in
/-- Spec formula (§4.7 step 5): disagreement = |edge| / line (the source's
divide guard substitutes 0 when line is not positive). -/
noncomputable def specDisagreement (l s : ℝ) : ℝ :=
  if 0 < l then |specEdge l s| / l else 0

/-- Modelled from the spec's words, for comparison with star_ids (claim C5):
the star set as the claim describes it, with a minimum games-played floor
minGames on top of the >15 average threshold. -/
def spec_star_ids (rows : List TeammateRow) (athleteId : String)
    (minGames : ℕ) : List String :=
  ((rows.map (fun r => r.athleteId)).dedup).filter
    (fun a => a != athleteId && decide (15 < avgPoints rows a)
      && decide (minGames ≤ (rowsFor rows a).length))

/-- A game-log row with the given id, date and point total (concrete-input
helper; the other stat columns get fixed small values). -/
def mkLogRow (g : String) (d : ℤ) (pts : ℚ) : GameLogRow :=
  ⟨g, d, pts, 5, 3, 1, 1, none⟩

/-- Concrete input for C2: three qualifying games, the player appears in the
target game's boxscore (opponent resolvable) and the opponent has three
recent games, so the opponent-defense adjuster runs. -/
def c2Env : Env :=
  ⟨[mkLogRow "g1" 1 10, mkLogRow "g2" 2 12, mkLogRow "g3" 3 14],
    "gT", "A", [], some ⟨"T1", "T1", "T2"⟩,
    [⟨110, 40, 25⟩, ⟨112, 42, 26⟩, ⟨118, 45, 28⟩], [], []⟩

/-- Concrete input for C3's counterexample: a season log in which the player
has no row for the target game "gT" (a did-not-play game dated 2), while a
later game (date 3) is in the log. -/
def c3Log : List GameLogRow := [mkLogRow "ga" 1 10, mkLogRow "gb" 3 12]

/-- Concrete strictly-dated log for C3's witness. -/
def c3SortedLog : List GameLogRow :=
  [mkLogRow "g1" 1 10, mkLogRow "g2" 2 12, mkLogRow "g3" 3 14]

/-- Concrete input for C4: a true (-110, -110) main line next to a
(+250, -350) alternate line. -/
def c4Rows : List PropRow :=
  [⟨25.5, some "-110", some "-110"⟩, ⟨30.5, some "+250", some "-350"⟩]

/-- Concrete input for C5: one teammate with a single 20-point game. -/
def c5Rows : List TeammateRow := [⟨"B", "Bob", 20⟩]

/-- Concrete input for C6's counterexample: exactly 3 qualifying games but a
blocks prediction with opponent data present. -/
def c6BadEnv : Env :=
  ⟨[mkLogRow "h1" 1 8, mkLogRow "h2" 2 9, mkLogRow "h3" 3 11],
    "hT", "A", [], some ⟨"T1", "T2", "T1"⟩,
    [⟨100, 40, 20⟩, ⟨105, 41, 22⟩, ⟨99, 39, 21⟩], [], []⟩

/-- Concrete input for C9's witness: two star teammates, both absent from
the target game; the opponent row set is empty, so the opponent adjuster
returns its neutral dict. -/
def c9Env : Env :=
  ⟨[mkLogRow "g1" 1 10, mkLogRow "g2" 2 12, mkLogRow "g3" 3 14],
    "gT", "A", [], some ⟨"T1", "T1", "T2"⟩, [],
    [⟨"B", "Bob", 20⟩, ⟨"C", "Cal", 18⟩], []⟩

/-- C2: the claim says predict_stat is never fatal beyond the
insufficient-history result; evaluating the engine at a steals prediction
with 3 qualifying games and 3 opponent games shows the uncaught pandas
KeyError instead. -/
theorem c2_steals_keyerror :
    predict_stat c2Env .steals = .error (.keyError "steals_allowed") := rfl

/-- C6 (counterexample): exactly 3 qualifying games, yet no prediction
result is produced — the blocks call dies on the opponent-defense KeyError,
refuting the claim's "with exactly 3 qualifying games it produces a
prediction result". -/
theorem c6_counterexample :
    (glOf c6BadEnv).length = 3 ∧ isResult (predict_stat c6BadEnv .blocks) = false := by
  exact ⟨rfl, rfl⟩

/-- C4: the ORDER BY strips only the '+' sign before casting, so it ranks
quotes by distance of the over odds to +110, not to -110: with a -110
two-sided main line and a +250 alternate on offer, the engine selects the
+250 alternate quote (line 30.5) even though -110 is exactly the claimed
target while +250 is 360 away from it. -/
theorem c4_propline_picks_plus110 :
    get_prop_line c4Rows = some ⟨30.5, false, "+250", "-350"⟩ ∧
    |sqliteCastInt (stripPlus "-110") - (-110)| <
      |sqliteCastInt (stripPlus "+250") - (-110)| := by
  exact ⟨rfl, by decide⟩

/-- C5 (counterexample): a teammate with a single 20-point qualifying game
is counted as a star, so the engine applies no games-played floor (any floor
of at least 2 games disagrees with the code on this input). -/
theorem c5_counterexample :
    star_ids c5Rows "A" = ["B"] ∧ (rowsFor c5Rows "B").length = 1 ∧
    spec_star_ids c5Rows "A" 2 = [] := by
  refine ⟨?_, rfl, ?_⟩
  · norm_num [star_ids, c5Rows, avgPoints, qMean, rowsFor]
    decide
  · norm_num [spec_star_ids, c5Rows, avgPoints, qMean, rowsFor]

/-- C5 (amended): the star set is exactly the teammates other than the
target athlete whose average points over their qualifying rows strictly
exceed 15 — one qualifying game suffices, there is no games-played floor. -/
theorem c5_star_set (rows : List TeammateRow) (target : String) (a : String) :
    a ∈ star_ids rows target ↔
      a ∈ rows.map (fun r => r.athleteId) ∧ a ≠ target ∧ 15 < avgPoints rows a := by
  unfold star_ids
  simp [List.mem_filter, List.mem_dedup, bne_iff_ne, and_assoc]

/-- C3 (counterexample): with before_game_id given but absent from the
player's qualifying rows (a did-not-play target game dated 2), the log is
returned untruncated and a game dated after the target game remains in it —
refuting "every entry is chronologically strictly before the target game". -/
theorem c3_counterexample :
    get_player_game_log c3Log (some "gT") = c3Log ∧
    ∃ r ∈ get_player_game_log c3Log (some "gT"), 2 ≤ r.date := by
  refine ⟨rfl, by decide⟩

/-- In the High band the hybrid branch returns the literal fields below. -/
theorem hybrid_high_eq (l s : ℝ) (b : Bool)
    (h : specDisagreement l s < 0.10) :
    (hybridOutcome l b s).confidence = .high ∧
    (hybridOutcome l b s).recommendation =
      (if b then
        (if |specEdge l s| < 0.5 then .pass
          else if 0 < specEdge l s then .over else .under)
        else .passAltLine) := by
  unfold specDisagreement specEdge at h
  unfold hybridOutcome specEdge
  dsimp only
  rw [if_pos h]
  exact ⟨rfl, rfl⟩

/-- In the Medium band the hybrid branch returns the literal fields below. -/
theorem hybrid_medium_eq (l s : ℝ) (b : Bool)
    (h1 : ¬ specDisagreement l s < 0.10) (h2 : specDisagreement l s < 0.20) :
    (hybridOutcome l b s).confidence = .medium ∧
    (hybridOutcome l b s).recommendation =
      (if b then
        (if 1.0 ≤ specEdge l s then .over
          else if specEdge l s ≤ -1.0 then .under else .pass)
        else .passAltLine) := by
  unfold specDisagreement specEdge at h1 h2
  unfold hybridOutcome specEdge
  dsimp only
  rw [if_neg h1, if_pos h2]
  exact ⟨rfl, rfl⟩

/-- In the Low band the hybrid branch returns the literal fields below. -/
theorem hybrid_low_eq (l s : ℝ) (b : Bool)
    (h1 : ¬ specDisagreement l s < 0.10) (h2 : ¬ specDisagreement l s < 0.20) :
    (hybridOutcome l b s).confidence = .low ∧
    (hybridOutcome l b s).recommendation =
      (if b then
        (if 2.0 ≤ specEdge l s then .over
          else if specEdge l s ≤ -2.0 then .under else .pass)
        else .pass) := by
  unfold specDisagreement specEdge at h1 h2
  unfold hybridOutcome specEdge
  dsimp only
  rw [if_neg h1, if_neg h2]
  exact ⟨rfl, rfl⟩

/-- C1 (counterexample): in the hybrid branch with market line 0 the source
sets disagreement to 0, not to a maximal value, so the confidence is High —
refuting "the result's confidence is Low (the lowest tier), never High". -/
theorem c1_counterexample :
    (hybridOutcome 0 true 22).confidence ≠ .low ∧
    (hybridOutcome 0 true 22).confidence = .high := by
  unfold hybridOutcome
  norm_num
  decide

/-- C1 (amended): when the selected market line is 0, the hybrid branch
treats the disagreement ratio as 0 (minimal), so the result's confidence is
High, never Low; no NaN is produced — final and edge are the well-defined
values 0.35 × statistical estimate. -/
theorem c1_zero_line_behavior (b : Bool) (s : ℝ) :
    (hybridOutcome 0 b s).confidence = .high ∧
    (hybridOutcome 0 b s).finalPrediction = s * 0.35 ∧
    (hybridOutcome 0 b s).edge = s * 0.35 := by
  unfold hybridOutcome
  norm_num

/-- C7: in the hybrid branch final = line×0.65 + statistical×0.35 and
edge = final − line for every input; at line 20.0 and statistical estimate
22.0 with a main line this gives final 20.7, edge 0.7, confidence High and
recommendation Over. -/
theorem c7_blend_arithmetic :
    (∀ (l s : ℝ) (b : Bool),
      (hybridOutcome l b s).finalPrediction = l * 0.65 + s * 0.35 ∧
      (hybridOutcome l b s).edge = (hybridOutcome l b s).finalPrediction - l) ∧
    (hybridOutcome 20 true 22).finalPrediction = 20.7 ∧
    (hybridOutcome 20 true 22).edge = 0.7 ∧
    (hybridOutcome 20 true 22).confidence = .high ∧
    (hybridOutcome 20 true 22).recommendation = .over := by
  constructor
  · intro l s b
    unfold hybridOutcome
    dsimp only
    split_ifs <;> exact ⟨rfl, rfl⟩
  · unfold hybridOutcome
    norm_num [abs_of_pos]

/-- C8: the hybrid branch's confidence/recommendation bands.  disagreement
< 0.10 gives High with Over/Under threshold |edge| ≥ 0.5; 0.10 ≤
disagreement < 0.20 gives Medium with threshold |edge| ≥ 1.0; disagreement
≥ 0.20 gives Low with threshold |edge| ≥ 2.0; on a non-main line the High
and Medium branches return PassAltLine while the Low branch returns plain
Pass. -/
theorem c8_confidence_bands (l s : ℝ) (b : Bool) :
    (specDisagreement l s < 0.10 →
      (hybridOutcome l b s).confidence = .high ∧
      (b = true →
        (|specEdge l s| < 0.5 → (hybridOutcome l b s).recommendation = .pass) ∧
        (0.5 ≤ |specEdge l s| →
          (hybridOutcome l b s).recommendation =
            (if 0 < specEdge l s then .over else .under))) ∧
      (b = false → (hybridOutcome l b s).recommendation = .passAltLine)) ∧
    (0.10 ≤ specDisagreement l s → specDisagreement l s < 0.20 →
      (hybridOutcome l b s).confidence = .medium ∧
      (b = true →
        (|specEdge l s| < 1 → (hybridOutcome l b s).recommendation = .pass) ∧
        (1 ≤ |specEdge l s| →
          (hybridOutcome l b s).recommendation =
            (if 0 < specEdge l s then .over else .under))) ∧
      (b = false → (hybridOutcome l b s).recommendation = .passAltLine)) ∧
    (0.20 ≤ specDisagreement l s →
      (hybridOutcome l b s).confidence = .low ∧
      (b = true →
        (|specEdge l s| < 2 → (hybridOutcome l b s).recommendation = .pass) ∧
        (2 ≤ |specEdge l s| →
          (hybridOutcome l b s).recommendation =
            (if 0 < specEdge l s then .over else .under))) ∧
      (b = false → (hybridOutcome l b s).recommendation = .pass)) := by
  refine ⟨fun h => ?_, fun h1 h2 => ?_, fun h => ?_⟩
  · obtain ⟨hc, hr⟩ := hybrid_high_eq l s b h
    refine ⟨hc, fun hb => ?_, fun hb => ?_⟩
    · subst hb
      rw [if_pos rfl] at hr
      refine ⟨fun he => ?_, fun he => ?_⟩
      · rw [hr, if_pos he]
      · rw [hr, if_neg (not_lt.2 he)]
    · subst hb
      rw [if_neg (by simp)] at hr
      exact hr
  · obtain ⟨hc, hr⟩ := hybrid_medium_eq l s b (not_lt.2 h1) h2
    refine ⟨hc, fun hb => ?_, fun hb => ?_⟩
    · subst hb
      rw [if_pos rfl] at hr
      refine ⟨fun he => ?_, fun he => ?_⟩
      · obtain ⟨he1, he2⟩ := abs_lt.1 he
        rw [hr, if_neg (by linarith), if_neg (by linarith)]
      · rcases le_abs.1 he with h3 | h3
        · rw [hr, if_pos (by linarith), if_pos (by linarith)]
        · rw [hr, if_neg (by linarith), if_pos (by linarith),
            if_neg (by linarith)]
    · subst hb
      rw [if_neg (by simp)] at hr
      exact hr
  · obtain ⟨hc, hr⟩ := hybrid_low_eq l s b (not_lt.2 (by linarith))
      (not_lt.2 h)
    refine ⟨hc, fun hb => ?_, fun hb => ?_⟩
    · subst hb
      rw [if_pos rfl] at hr
      refine ⟨fun he => ?_, fun he => ?_⟩
      · obtain ⟨he1, he2⟩ := abs_lt.1 he
        rw [hr, if_neg (by linarith), if_neg (by linarith)]
      · rcases le_abs.1 he with h3 | h3
        · rw [hr, if_pos (by linarith), if_pos (by linarith)]
        · rw [hr, if_neg (by linarith), if_pos (by linarith),
            if_neg (by linarith)]
    · subst hb
      rw [if_neg (by simp)] at hr
      exact hr

/-- C3 (amended): when the dates in the (date-ascending) log are strictly
increasing, every entry of the truncated log is dated strictly before every
row of the target game, so no game at or after the target appears — but
only because a row for before_game_id exists; when before_game_id has no
row in the qualifying log (the player did not play that game), the log is
returned whole, untruncated. -/
theorem c3_truncation (df : List GameLogRow) (g : String)
    (hsorted : df.Pairwise (fun a b => a.date < b.date)) :
    (∀ r ∈ get_player_game_log df (some g), ∀ rg ∈ df,
      rg.gameId = g → r.date < rg.date) ∧
    (g ∉ df.map (fun r => r.gameId) → get_player_game_log df (some g) = df) := by
  constructor
  · intro r hr rg hrg hgid
    unfold get_player_game_log at hr
    dsimp only at hr
    by_cases hmem : (df.map (fun r => r.gameId)).contains g
    · rw [if_pos hmem] at hr
      have hsplit := df.takeWhile_append_dropWhile (fun r => r.gameId != g)
      have hpw : (df.takeWhile (fun r => r.gameId != g) ++
          df.dropWhile (fun r => r.gameId != g)).Pairwise
          (fun a b => a.date < b.date) := by
        rw [hsplit]; exact hsorted
      rw [List.pairwise_append] at hpw
      have hrg2 : rg ∈ df.takeWhile (fun r => r.gameId != g) ++
          df.dropWhile (fun r => r.gameId != g) := by
        rw [hsplit]; exact hrg
      rcases List.mem_append.1 hrg2 with hin | hin
      · have := List.mem_takeWhile_imp hin
        simp [hgid] at this
      · exact hpw.2.2 r hr rg hin
    · rw [if_neg hmem] at hr
      exfalso
      exact hmem (List.elem_eq_true_of_mem (List.mem_map.2 ⟨rg, hrg, hgid⟩))
  · intro hnot
    unfold get_player_game_log
    dsimp only
    rw [if_neg]
    intro hc
    exact hnot (List.mem_of_elem_eq_true hc)

/-- C3 (witness): a strictly-dated three-game log truncated at its second
game; the first game is in the truncation and dated before it. -/
theorem c3_witness :
    c3SortedLog.Pairwise (fun a b => a.date < b.date) ∧
    (mkLogRow "g1" 1 10).date < (mkLogRow "g2" 2 12).date := by
  exact ⟨by decide, (c3_truncation c3SortedLog "g2" (by decide)).1
    (mkLogRow "g1" 1 10) (by decide) (mkLogRow "g2" 2 12) (by decide) rfl⟩

/-- The opponent-defense adjuster succeeds except in the KeyError case. -/
theorem opp_def_ok (df : List OppRow) (stat : StatType)
    (h : ¬ (3 ≤ df.length ∧ (stat = .steals ∨ stat = .blocks))) :
    ∃ o, get_opponent_recent_defense df stat = .ok o := by
  unfold get_opponent_recent_defense
  by_cases hlen : df.length < 3
  · rw [if_pos hlen]
    exact ⟨_, rfl⟩
  · rw [if_neg hlen]
    have h3 : 3 ≤ df.length := Nat.le_of_not_lt hlen
    cases stat with
    | steals => exact absurd ⟨h3, Or.inl rfl⟩ h
    | blocks => exact absurd ⟨h3, Or.inr rfl⟩ h
    | points => exact ⟨_, rfl⟩
    | rebounds => exact ⟨_, rfl⟩
    | assists => exact ⟨_, rfl⟩

/-- The statistical prediction is the insufficient-data dict exactly when
the truncated game log has fewer than 3 rows. -/
theorem calc_insufficient_iff (env : Env) (stat : StatType) :
    calculate_statistical_prediction env stat = .ok .insufficient ↔
      (glOf env).length < 3 := by
  unfold calculate_statistical_prediction
  by_cases h : (glOf env).length < 3
  · rw [if_pos h]
    simp [h]
  · rw [if_neg h]
    simp only [h, iff_false]
    cases hop : env.opponentTeams with
    | none => simp
    | some t =>
      cases hod : get_opponent_recent_defense env.oppDf stat with
      | error e => simp
      | ok o => simp

/-- With at least 3 games and no KeyError condition the statistical
prediction succeeds. -/
theorem calc_success_of (env : Env) (stat : StatType)
    (h3 : ¬ (glOf env).length < 3) (hk : ¬ keyErrorCond env stat) :
    ∃ s, calculate_statistical_prediction env stat = .ok (.success s) := by
  unfold calculate_statistical_prediction
  rw [if_neg h3]
  cases hop : env.opponentTeams with
  | none => exact ⟨_, rfl⟩
  | some t =>
    have hno : ¬ (3 ≤ env.oppDf.length ∧ (stat = .steals ∨ stat = .blocks)) := by
      intro hc
      exact hk ⟨by simp [hop], hc.1, hc.2⟩
    obtain ⟨o, ho⟩ := opp_def_ok env.oppDf stat hno
    rw [ho]
    exact ⟨_, rfl⟩

/-- predict_stat reports insufficient history exactly when the statistical
layer does. -/
theorem predict_insufficient_iff (env : Env) (stat : StatType) :
    isInsufficient (predict_stat env stat) = true ↔
      calculate_statistical_prediction env stat = .ok .insufficient := by
  unfold predict_stat
  dsimp only
  cases hc : calculate_statistical_prediction env stat with
  | error e => simp [isInsufficient]
  | ok so =>
    cases so with
    | insufficient => simp [isInsufficient]
    | success s =>
      cases hv : get_prop_line env.propRows with
      | none => simp [isInsufficient]
      | some v => simp [isInsufficient]

/-- C6: predict_stat returns the insufficient-history dict exactly when the
truncated log has fewer than 3 qualifying games — 2 games give the error
dict (null prediction) and never a result; with 3 or more games the
insufficient branch is impossible and, whenever the opponent-defense
KeyError condition is absent, a full prediction result is produced, so the
boundary sits precisely at 3 games. -/
theorem c6_boundary (env : Env) (stat : StatType) :
    (isInsufficient (predict_stat env stat) = true ↔ (glOf env).length < 3) ∧
    ((glOf env).length = 2 → isInsufficient (predict_stat env stat) = true ∧
      isResult (predict_stat env stat) = false) ∧
    (3 ≤ (glOf env).length → ¬ keyErrorCond env stat →
      isResult (predict_stat env stat) = true) := by
  have hmain : isInsufficient (predict_stat env stat) = true ↔
      (glOf env).length < 3 :=
    (predict_insufficient_iff env stat).trans (calc_insufficient_iff env stat)
  refine ⟨hmain, fun h2 => ?_, fun h3 hk => ?_⟩
  · have hi : isInsufficient (predict_stat env stat) = true :=
      hmain.2 (by omega)
    refine ⟨hi, ?_⟩
    cases hp : predict_stat env stat with
    | error e => simp [isResult]
    | ok o =>
      cases o with
      | insufficient => simp [isResult]
      | result r =>
        rw [hp] at hi
        simp [isInsufficient] at hi
  · obtain ⟨s, hs⟩ := calc_success_of env stat (by omega) hk
    unfold predict_stat
    dsimp only
    rw [hs]
    cases hv : get_prop_line env.propRows with
    | none => simp [isResult]
    | some v => simp [isResult]

/-- The teammate adjustment is always 0.125 times the missing-star count. -/
theorem teammate_adjustment_eq (rows : List TeammateRow) (a : String)
    (participants : List String) :
    (get_teammate_context rows a participants).adjustment =
      0.125 * ((get_teammate_context rows a participants).missingStars.length : ℚ) := by
  unfold get_teammate_context
  by_cases h : (star_ids rows a).isEmpty
  · rw [if_pos h]
    simp
  · rw [if_neg h]
    dsimp only
    ring

/-- C9: for every count k of missing star teammates the statistical
prediction multiplies the pre-boost running total (baseline + trend +
opponent adjustment) exactly once by the factor 1 + 0.125 × k. -/
theorem c9_teammate_boost (env : Env) (stat : StatType) (t : OppTeams)
    (o : OppDefInfo)
    (h3 : ¬ (glOf env).length < 3)
    (hop : env.opponentTeams = some t)
    (hod : get_opponent_recent_defense env.oppDf stat = .ok o) :
    ∃ s, calculate_statistical_prediction env stat = .ok (.success s) ∧
      s.prediction =
        (baselineOf env stat + trendAdjOf env stat + (o.adjustment : ℝ)) *
          (1 + 0.125 *
            ((get_teammate_context env.teammateRows env.athleteId
              env.playingIds).missingStars.length : ℝ)) := by
  unfold calculate_statistical_prediction
  rw [if_neg h3, hop]
  dsimp only
  rw [hod]
  dsimp only
  refine ⟨_, rfl, ?_⟩
  rw [teammate_adjustment_eq]
  push_cast
  ring

/-- C9 (witness): with two missing stars the boost factor applied once is
1 + 0.125 × 2 = 1.25. -/
theorem c9_witness :
    (get_teammate_context c9Env.teammateRows c9Env.athleteId
      c9Env.playingIds).missingStars.length = 2 ∧
    ((1 : ℝ) + 0.125 * ((2 : ℕ) : ℝ) = 1.25) ∧
    ∃ s, calculate_statistical_prediction c9Env .points = .ok (.success s) ∧
      s.prediction = (baselineOf c9Env .points + trendAdjOf c9Env .points +
        ((0 : ℚ) : ℝ)) * (1 + 0.125 * ((2 : ℕ) : ℝ)) := by
  have hrB : rowsFor c9Env.teammateRows "B" = [⟨"B", "Bob", 20⟩] := by decide
  have hrC : rowsFor c9Env.teammateRows "C" = [⟨"C", "Cal", 18⟩] := by decide
  have hB : avgPoints c9Env.teammateRows "B" = 20 := by
    unfold avgPoints
    rw [hrB]
    norm_num [qMean]
  have hC : avgPoints c9Env.teammateRows "C" = 18 := by
    unfold avgPoints
    rw [hrC]
    norm_num [qMean]
  have hd : (c9Env.teammateRows.map (fun r => r.athleteId)).dedup = ["B", "C"] := by
    decide
  have hstar : star_ids c9Env.teammateRows "A" = ["B", "C"] := by
    unfold star_ids
    rw [hd]
    simp [hB, hC]
    norm_num
  have hctx : (get_teammate_context c9Env.teammateRows c9Env.athleteId
      c9Env.playingIds).missingStars.length = 2 := by
    simp only [get_teammate_context, show c9Env.athleteId = "A" from rfl, hstar]
    decide
  have h := c9_teammate_boost c9Env .points ⟨"T1", "T1", "T2"⟩
    ⟨0, none, none, 0⟩ (by decide) rfl rfl
  rw [hctx] at h
  exact ⟨hctx, by norm_num, h⟩

/-- Raw exponential-decay weights are positive. -/
theorem rawWeight_pos (decay : ℝ) (m i : ℕ) : 0 < rawWeight decay m i :=
  Real.exp_pos _

/-- The raw weight list has one weight per series index. -/
theorem rawWeights_length (decay : ℝ) (m : ℕ) :
    (rawWeights decay m).length = m := by
  simp [rawWeights]

/-- The raw weights have positive sum for a non-empty series. -/
theorem rawWeights_sum_pos (decay : ℝ) (m : ℕ) (hm : m ≠ 0) :
    0 < (rawWeights decay m).sum := by
  apply List.sum_pos
  · intro x hx
    obtain ⟨i, -, rfl⟩ := List.mem_map.1 hx
    exact rawWeight_pos decay m i
  · simp [rawWeights, hm, List.range_eq_nil]

/-- Summing a list divided elementwise by a constant. -/
theorem sum_map_div (l : List ℝ) (c : ℝ) :
    (l.map (fun x => x / c)).sum = l.sum / c := by
  induction l with
  | nil => simp
  | cons a t ih => simp [ih, add_div]

/-- The normalized weight list sums to exactly 1. -/
theorem normWeights_sum (decay : ℝ) (m : ℕ) (hm : m ≠ 0) :
    (normWeights decay m).sum = 1 := by
  unfold normWeights normWeight
  have : ((List.range m).map
      (fun i => rawWeight decay m i / (rawWeights decay m).sum)) =
      (rawWeights decay m).map (fun x => x / (rawWeights decay m).sum) := by
    unfold rawWeights
    rw [List.map_map]
    rfl
  rw [this, sum_map_div]
  exact div_self (ne_of_gt (rawWeights_sum_pos decay m hm))

/-- The normalized weight list has one weight per series index. -/
theorem normWeights_length (decay : ℝ) (m : ℕ) :
    (normWeights decay m).length = m := by
  simp [normWeights]

/-- Normalized weights are nonnegative for a non-empty series. -/
theorem normWeight_nonneg (decay : ℝ) (m : ℕ) (hm : m ≠ 0) :
    ∀ x ∈ normWeights decay m, 0 ≤ x := by
  intro x hx
  obtain ⟨i, -, rfl⟩ := List.mem_map.1 hx
  exact le_of_lt (div_pos (rawWeight_pos decay m i)
    (rawWeights_sum_pos decay m hm))

/-- Dot product against an upper bound on the values. -/
theorem zipWith_sum_le (w : List ℝ) : ∀ (v : List ℝ) (b : ℝ),
    w.length = v.length → (∀ x ∈ w, 0 ≤ x) → (∀ x ∈ v, x ≤ b) →
    (List.zipWith (fun wi x => wi * x) w v).sum ≤ w.sum * b := by
  induction w with
  | nil =>
    intro v b hl _ _
    simp
  | cons a t ih =>
    intro v b hl hw hv
    cases v with
    | nil => simp at hl
    | cons x xs =>
      simp only [List.zipWith_cons_cons, List.sum_cons]
      have h1 : a * x ≤ a * b :=
        mul_le_mul_of_nonneg_left (hv x (by simp)) (hw a (by simp))
      have h2 := ih xs b (by simpa using hl)
        (fun y hy => hw y (by simp [hy])) (fun y hy => hv y (by simp [hy]))
      calc a * x + (List.zipWith (fun wi x => wi * x) t xs).sum
          ≤ a * b + t.sum * b := add_le_add h1 h2
        _ = (a + t.sum) * b := by ring

/-- Dot product against a lower bound on the values. -/
theorem zipWith_sum_ge (w : List ℝ) : ∀ (v : List ℝ) (b : ℝ),
    w.length = v.length → (∀ x ∈ w, 0 ≤ x) → (∀ x ∈ v, b ≤ x) →
    w.sum * b ≤ (List.zipWith (fun wi x => wi * x) w v).sum := by
  induction w with
  | nil =>
    intro v b hl _ _
    simp
  | cons a t ih =>
    intro v b hl hw hv
    cases v with
    | nil => simp at hl
    | cons x xs =>
      simp only [List.zipWith_cons_cons, List.sum_cons]
      have h1 : a * b ≤ a * x :=
        mul_le_mul_of_nonneg_left (hv x (by simp)) (hw a (by simp))
      have h2 := ih xs b (by simpa using hl)
        (fun y hy => hw y (by simp [hy])) (fun y hy => hv y (by simp [hy]))
      calc (a + t.sum) * b = a * b + t.sum * b := by ring
        _ ≤ a * x + (List.zipWith (fun wi x => wi * x) t xs).sum :=
          add_le_add h1 h2

/-- An empty input series gives an empty averaged series. -/
theorem tailValues_of_nil (n : ℕ) : tailValues [] n = [] := by
  simp [tailValues, lastN, dropna]

/-- C10: calculate_weighted_average is total: an empty or all-missing
series gives exactly 0.0; otherwise it is a convex combination of the last
(up to n_recent) non-missing values — the normalized weights sum to 1, so
the result is bounded by every upper and lower bound of those values — and
with a positive decay the most recent value's weight strictly exceeds every
earlier weight. -/
theorem c10_weighted_average (values : List (Option ℝ)) (n : ℕ) (decay : ℝ) :
    (tailValues values n = [] → calculate_weighted_average values n decay = 0) ∧
    (tailValues values n ≠ [] →
      (normWeights decay (tailValues values n).length).sum = 1) ∧
    (∀ b : ℝ, tailValues values n ≠ [] →
      (∀ x ∈ tailValues values n, x ≤ b) →
      calculate_weighted_average values n decay ≤ b) ∧
    (∀ b : ℝ, tailValues values n ≠ [] →
      (∀ x ∈ tailValues values n, b ≤ x) →
      b ≤ calculate_weighted_average values n decay) ∧
    (0 < decay → ∀ i : ℕ, i + 1 < (tailValues values n).length →
      normWeight decay (tailValues values n).length i <
        normWeight decay (tailValues values n).length
          ((tailValues values n).length - 1)) := by
  have hm : ∀ h : tailValues values n ≠ [], (tailValues values n).length ≠ 0 :=
    fun h => by simpa [List.length_eq_zero] using h
  refine ⟨?_, fun h => normWeights_sum decay _ (hm h), ?_, ?_, ?_⟩
  · intro h
    unfold calculate_weighted_average
    by_cases hv : values.length = 0
    · rw [if_pos hv]
    · rw [if_neg hv]
      dsimp only
      rw [h]
      simp
  · intro b hne hub
    unfold calculate_weighted_average
    have hv : ¬ values.length = 0 := by
      intro hz
      obtain rfl := List.length_eq_zero.1 hz
      exact hne (tailValues_of_nil n)
    rw [if_neg hv]
    dsimp only
    rw [if_neg (hm hne)]
    rw [normWeights_sum decay _ (hm hne), div_one]
    calc (List.zipWith (fun wi x => wi * x)
          (normWeights decay (tailValues values n).length)
          (tailValues values n)).sum
        ≤ (normWeights decay (tailValues values n).length).sum * b :=
          zipWith_sum_le _ _ b
            (by rw [normWeights_length])
            (normWeight_nonneg decay _ (hm hne)) hub
      _ = b := by rw [normWeights_sum decay _ (hm hne), one_mul]
  · intro b hne hlb
    unfold calculate_weighted_average
    have hv : ¬ values.length = 0 := by
      intro hz
      obtain rfl := List.length_eq_zero.1 hz
      exact hne (tailValues_of_nil n)
    rw [if_neg hv]
    dsimp only
    rw [if_neg (hm hne)]
    rw [normWeights_sum decay _ (hm hne), div_one]
    calc b = (normWeights decay (tailValues values n).length).sum * b := by
          rw [normWeights_sum decay _ (hm hne), one_mul]
      _ ≤ (List.zipWith (fun wi x => wi * x)
            (normWeights decay (tailValues values n).length)
            (tailValues values n)).sum :=
          zipWith_sum_ge _ _ b
            (by rw [normWeights_length])
            (normWeight_nonneg decay _ (hm hne)) hlb
  · intro hdecay i hi
    have hS := rawWeights_sum_pos decay (tailValues values n).length
      (by omega)
    have hraw : rawWeight decay (tailValues values n).length i <
        rawWeight decay (tailValues values n).length
          ((tailValues values n).length - 1) := by
      unfold rawWeight
      apply Real.exp_lt_exp.2
      have hk : 1 ≤ (tailValues values n).length - 1 - i := by omega
      have hz : (tailValues values n).length - 1 -
          ((tailValues values n).length - 1) = 0 := Nat.sub_self _
      rw [hz]
      have hkpos : (0 : ℝ) < (((tailValues values n).length - 1 - i : ℕ) : ℝ) := by
        exact_mod_cast Nat.lt_of_lt_of_le Nat.zero_lt_one hk
      have := mul_pos hdecay hkpos
      simp only [Nat.cast_zero, mul_zero, neg_zero]
      linarith
    unfold normWeight
    exact div_lt_div_of_pos_right hraw hS
